import Mathlib

/-!
Shallow embedding of `src/homework.py` (fitness-tracker homework module).

Modelling conventions:
- Python floats are modelled by exact rationals `ℚ`; every numeric constant of
  the source (`0.65`, `1.38`, `1.79`, `0.035`, `0.029`, `3.6`, `1.1`) is an
  exact decimal, so the formulas transfer verbatim.
- Python raises exceptions; fallible operations return `Except PyError _`.
  Division whose divisor is a runtime value goes through `pydiv` (which models
  `ZeroDivisionError`); division by a nonzero literal constant uses plain
  field division, which agrees with Python wherever Python does not raise.
- The class hierarchy `Training / Running / SportsWalking / Swimming` is
  modelled as a tagged type `Workout`; dynamic dispatch on `LEN_STEP`,
  `get_mean_speed` and `get_spent_calories` becomes a match on the tag.
-/

/-- The Python exceptions that the module can raise: `TypeError` (wrong number
of positional arguments to a constructor), `IndexError` (out-of-bounds access
to the `*args` tuple in `Swimming.__init__`), `ZeroDivisionError`. -/
inductive PyError
  | typeError
  | indexError
  | zeroDivisionError
deriving DecidableEq

/-- `M_IN_KM = 1000` (module-level constant). -/
def M_IN_KM : ℚ := 1000

/-- Python division `a / b`: raises `ZeroDivisionError` when `b == 0`. -/
def pydiv (a b : ℚ) : Except PyError ℚ :=
  if b = 0 then .error .zeroDivisionError else .ok (a / b)

/-- The three concrete training classes with their fields:
`Running(action, duration, weight)`,
`SportsWalking(action, duration, weight, height)`,
`Swimming(action, duration, weight, length_pool, count_pool)`.
Durations are hours, weights kilograms. -/
inductive Workout
  | running (action duration weight : ℚ)
  | walking (action duration weight height : ℚ)
  | swimming (action duration weight length_pool count_pool : ℚ)
deriving DecidableEq

/-- Shared base-class field `self.action`. -/
def Workout.action : Workout → ℚ
  | .running a _ _ => a
  | .walking a _ _ _ => a
  | .swimming a _ _ _ _ => a

/-- Shared base-class field `self.duration` (hours). -/
def Workout.duration : Workout → ℚ
  | .running _ d _ => d
  | .walking _ d _ _ => d
  | .swimming _ d _ _ _ => d

/-- Shared base-class field `self.weight` (kilograms). -/
def Workout.weight : Workout → ℚ
  | .running _ _ w => w
  | .walking _ _ w _ => w
  | .swimming _ _ w _ _ => w

/-- Class attribute `LEN_STEP`: `0.65` on `Training` (inherited by `Running`
and `SportsWalking`), overridden to `1.38` on `Swimming`. -/
def Workout.LEN_STEP : Workout → ℚ
  | .swimming _ _ _ _ _ => 1.38
  | _ => 0.65

/-- `Running.CALORIES_MEAN_SPEED_MULTIPLIER = 18`. -/
def CALORIES_MEAN_SPEED_MULTIPLIER : ℚ := 18

/-- `Running.CALORIES_MEAN_SPEED_SHIFT = 1.79`. -/
def CALORIES_MEAN_SPEED_SHIFT : ℚ := 1.79

/-- `SportsWalking.WEIGHT_MULTIPLIER_ONE = 0.035`. -/
def WEIGHT_MULTIPLIER_ONE : ℚ := 0.035

/-- `SportsWalking.WEIGHT_MULTIPLIER_TWO = 0.029`. -/
def WEIGHT_MULTIPLIER_TWO : ℚ := 0.029

/-- `SportsWalking.MEAN_SPEED_DIV = 3.6` (km/h to m/s). -/
def MEAN_SPEED_DIV : ℚ := 3.6

/-- `Swimming.SWIM_CALORIES_ADD = 1.1`. -/
def SWIM_CALORIES_ADD : ℚ := 1.1

/-- `Swimming.SWIM_CALORIES_MULTIPLIER = 2`. -/
def SWIM_CALORIES_MULTIPLIER : ℚ := 2

/-- `Training.get_distance`: `self.action * self.LEN_STEP / M_IN_KM`,
inherited unchanged by all three subclasses (only `LEN_STEP` varies). -/
def Workout.get_distance (w : Workout) : ℚ :=
  w.action * w.LEN_STEP / M_IN_KM

/-- `get_mean_speed`: on `Training` (hence `Running` and `SportsWalking`) it is
`self.get_distance() / self.duration`; `Swimming` overrides it with
`self.length_pool * self.count_pool / M_IN_KM / self.duration`. The division
by `self.duration` raises `ZeroDivisionError` when the duration is zero. -/
def Workout.get_mean_speed : Workout → Except PyError ℚ
  | .swimming _ d _ l c => pydiv (l * c / M_IN_KM) d
  | w => pydiv w.get_distance w.duration

/-- `get_spent_calories`, one formula per subclass:
`Running`: `(18 * speed + 1.79) * weight / M_IN_KM * duration * 60`;
`SportsWalking`: `(0.035 * weight + ((speed / 3.6) ** 2 / height) * 0.029 *
weight) * duration * 60` (division by `self.height` raises on zero);
`Swimming`: `(speed + 1.1) * 2 * weight * duration`. -/
def Workout.get_spent_calories : Workout → Except PyError ℚ
  | .running a d wt =>
    match (Workout.running a d wt).get_mean_speed with
    | .error e => .error e
    | .ok v =>
      .ok ((CALORIES_MEAN_SPEED_MULTIPLIER * v + CALORIES_MEAN_SPEED_SHIFT)
        * wt / M_IN_KM * d * 60)
  | .walking a d wt h =>
    match (Workout.walking a d wt h).get_mean_speed with
    | .error e => .error e
    | .ok v =>
      match pydiv ((v / MEAN_SPEED_DIV) ^ 2) h with
      | .error e => .error e
      | .ok sq =>
        .ok ((WEIGHT_MULTIPLIER_ONE * wt + sq * WEIGHT_MULTIPLIER_TWO * wt)
          * d * 60)
  | .swimming a d wt l c =>
    match (Workout.swimming a d wt l c).get_mean_speed with
    | .error e => .error e
    | .ok v => .ok ((v + SWIM_CALORIES_ADD) * SWIM_CALORIES_MULTIPLIER * wt * d)

/-- `InfoMessage` with the fields set by its `__init__`. -/
structure InfoMessage where
  training_type : String
  duration : ℚ
  distance : ℚ
  speed : ℚ
  calories : ℚ
deriving DecidableEq

/-- `Training.show_training_info`: builds `InfoMessage('My training', self)`,
whose `__init__` stores `training_obj.duration`, `get_distance()`,
`get_mean_speed()` and `get_spent_calories()`; any exception raised by those
calls propagates. -/
def Workout.show_training_info (w : Workout) : Except PyError InfoMessage :=
  match w.get_mean_speed with
  | .error e => .error e
  | .ok sp =>
    match w.get_spent_calories with
    | .error e => .error e
    | .ok cal =>
      .ok { training_type := "My training", duration := w.duration,
            distance := w.get_distance, speed := sp, calories := cal }

/-- Decimal digit character: `'0'` + `n % 10`. -/
def digitChr (n : ℕ) : Char := Char.ofNat (48 + n % 10)

/-- Round to the nearest integer, ties to the even neighbour — the rounding
Python's fixed-point formatting performs. -/
def roundHalfEven (q : ℚ) : ℤ :=
  if q - ⌊q⌋ < 1 / 2 then ⌊q⌋
  else if 1 / 2 < q - ⌊q⌋ then ⌊q⌋ + 1
  else if 2 ∣ ⌊q⌋ then ⌊q⌋ else ⌊q⌋ + 1

/-- Model of Python `"{:.3f}".format(x)` on the exact rational value: round to
a whole number of thousandths (half to even), then render sign, integer part,
a point, and exactly three fractional digits. -/
def formatFixed3 (q : ℚ) : String :=
  let n : ℤ := roundHalfEven (1000 * q)
  let m : ℕ := n.natAbs
  String.mk ((if n < 0 then ['-'] else []) ++ Nat.toDigits 10 (m / 1000)
    ++ '.' :: [digitChr (m / 100), digitChr (m / 10), digitChr m])

/-- `InfoMessage.get_message`: the concatenated f-string of the source, with
each numeric field rendered through `"{:.3f}"`. -/
def InfoMessage.get_message (m : InfoMessage) : String :=
  "Тип тренировки: " ++ m.training_type ++ "; Длительность: "
    ++ formatFixed3 m.duration ++ " ч.; Дистанция: " ++ formatFixed3 m.distance
    ++ " км; Ср. скорость: " ++ formatFixed3 m.speed
    ++ " км/ч; Потрачено ккал: " ++ formatFixed3 m.calories ++ "."

/-- Number of characters after the last `'.'` of a string. -/
def fracLen (s : String) : ℕ :=
  (s.data.reverse.takeWhile (fun c => c != '.')).length

/-- `Running(*data)`: exactly three positional arguments
`(action, duration, weight)`; any other arity raises `TypeError`. -/
def Running_init (data : List ℚ) : Except PyError Workout :=
  match data with
  | [a, d, w] => .ok (.running a d w)
  | _ => .error .typeError

/-- `SportsWalking(*data)`: exactly four positional arguments
`(action, duration, weight, height)`; any other arity raises `TypeError`. -/
def SportsWalking_init (data : List ℚ) : Except PyError Workout :=
  match data with
  | [a, d, w, h] => .ok (.walking a d w h)
  | _ => .error .typeError

/-- `Swimming(*data)`: signature `(action, duration, weight, *args)` — fewer
than three elements raises `TypeError`; otherwise the body reads `args[0]` and
`args[1]`, raising `IndexError` when the remainder has fewer than two
elements; extra elements beyond five are accepted and ignored. -/
def Swimming_init (data : List ℚ) : Except PyError Workout :=
  match data with
  | a :: d :: w :: rest =>
    match rest with
    | l :: c :: _ => .ok (.swimming a d w l c)
    | _ => .error .indexError
  | _ => .error .typeError

/-- `read_package(workout_type, data)`: looks the code up in
`{'RUN': Running, 'WLK': SportsWalking, 'SWM': Swimming}` and calls the found
constructor on `*data`; when the code is absent it falls through to
`return Swimming(*data)`. -/
def read_package (workout_type : String) (data : List ℚ) :
    Except PyError Workout :=
  if workout_type = "RUN" then Running_init data
  else if workout_type = "WLK" then SportsWalking_init data
  else if workout_type = "SWM" then Swimming_init data
  else Swimming_init data

/-- Modelled from the spec: the walking-calorie formula exactly as §4.1 of the
specification words it, `(0.035 * weightKg + (avgSpeedKmh * 0.278)^2 /
(heightCm/100) * 0.029 * weightKg) * durationHours * 60`, kept separate from
the source-derived `Workout.get_spent_calories` so the two can be compared. -/
def spec_walking_calories (weight speed height duration : ℚ) : ℚ :=
  (0.035 * weight + (speed * 0.278) ^ 2 / (height / 100) * 0.029 * weight)
    * duration * 60


/-! ## Claim theorems -/

/-- C1 (counterexample): on the unknown code "XYZ" with a five-element
parameter list, `read_package` does not fail at all: it constructs and
returns a populated Swimming record, so the claimed `UnsupportedModality`
failure does not happen. -/
theorem read_package_unknown_constructs_record :
    read_package "XYZ" [720, 1, 80, 25, 40]
      = .ok (Workout.swimming 720 1 80 25 40) := by
  with_unfolding_all rfl

/-- C1 (amended): for every modality code that is not one of the three known
tokens and every parameter list, `read_package` falls through to the
`Swimming` constructor applied to the parameters — it never reports an
unsupported-modality error. -/
theorem read_package_unknown_code (wt : String) (data : List ℚ)
    (h1 : wt ≠ "RUN") (h2 : wt ≠ "WLK") (h3 : wt ≠ "SWM") :
    read_package wt data = Swimming_init data := by
  unfold read_package
  rw [if_neg h1, if_neg h2, if_neg h3]

/-- C1 (witness): the amended statement at code "XYZ", data [15000, 1, 75]. -/
theorem read_package_unknown_code_witness :
    ("XYZ" ≠ "RUN" ∧ "XYZ" ≠ "WLK" ∧ "XYZ" ≠ "SWM")
    ∧ read_package "XYZ" [15000, 1, 75] = Swimming_init [15000, 1, 75] :=
  ⟨⟨by decide, by decide, by decide⟩,
    read_package_unknown_code "XYZ" [15000, 1, 75]
      (by decide) (by decide) (by decide)⟩

/-- C2 (counterexample): for Running(action=15000, duration=1, weight=75) the
code computes exactly 797.805 kcal, which is not approximately 687.79: the
two differ by more than 1. -/
theorem running_calories_not_687 :
    (Workout.running 15000 1 75).get_spent_calories = .ok (159561 / 200)
    ∧ (1 : ℚ) ≤ |159561 / 200 - 68779 / 100| := by
  constructor
  · with_unfolding_all rfl
  · rw [abs_of_nonneg (by norm_num : (0 : ℚ) ≤ 159561 / 200 - 68779 / 100)]
    norm_num

/-- C2 (amended): Running(action=15000, duration=1, weight=75) → distance
9.750 km, mean speed 9.750 km/h, spent calories exactly 797.805 kcal. -/
theorem running_example_values :
    (Workout.running 15000 1 75).get_distance = 39 / 4
    ∧ (Workout.running 15000 1 75).get_mean_speed = .ok (39 / 4)
    ∧ (Workout.running 15000 1 75).get_spent_calories = .ok (159561 / 200) := by
  refine ⟨?_, ?_, ?_⟩ <;> with_unfolding_all rfl

/-- C3 (counterexample): for Swimming(action=720, duration=1, weight=80,
poolLength=25, poolLaps=40) the code computes exactly 336 kcal, which is not
approximately 168.00: the two differ by more than 1. -/
theorem swimming_calories_not_168 :
    (Workout.swimming 720 1 80 25 40).get_spent_calories = .ok 336
    ∧ (1 : ℚ) ≤ |(336 : ℚ) - 168| := by
  constructor
  · with_unfolding_all rfl
  · rw [abs_of_nonneg (by norm_num : (0 : ℚ) ≤ (336 : ℚ) - 168)]
    norm_num

/-- C3 (amended): Swimming(action=720, duration=1, weight=80, poolLength=25,
poolLaps=40) → mean speed exactly 1.000 km/h, spent calories exactly
336.00 kcal. -/
theorem swimming_example_values :
    (Workout.swimming 720 1 80 25 40).get_mean_speed = .ok 1
    ∧ (Workout.swimming 720 1 80 25 40).get_spent_calories = .ok 336 := by
  refine ⟨?_, ?_⟩ <;> with_unfolding_all rfl

/-- C5 (counterexample): for the swimming sample (720, 1, 80, 25, 40) the
computed mean speed is 1 km/h, but the computed distance divided by the
duration is 0.9936 km/h ≠ 1, so the identity fails on swimming samples. -/
theorem swimming_speed_not_distance_ratio :
    (Workout.swimming 720 1 80 25 40).get_mean_speed = .ok 1
    ∧ (Workout.swimming 720 1 80 25 40).get_distance
        / (Workout.swimming 720 1 80 25 40).duration ≠ 1 := by
  constructor
  · with_unfolding_all rfl
  · with_unfolding_all decide

/-- C6 (counterexample): a negative duration is not rejected at all — the
mean-speed computation returns the negative value −9.75 without any error —
and a zero duration surfaces as a bare division-by-zero, not as a dedicated
invalid-input error. -/
theorem mean_speed_no_invalid_input_error :
    (Workout.running 15000 (-1) 75).get_mean_speed = .ok (-(39 / 4))
    ∧ (Workout.running 15000 0 75).get_mean_speed
        = .error .zeroDivisionError := by
  constructor <;> with_unfolding_all rfl

/-- C7 (code_bug evaluation): the report built for the running sample
(15000, 1, 75) carries the hard-coded type string "My training", which does
not identify the modality. -/
theorem report_type_is_constant_literal :
    (Workout.running 15000 1 75).show_training_info
      = .ok { training_type := "My training", duration := 1,
              distance := 39 / 4, speed := 39 / 4, calories := 159561 / 200 }
    ∧ "My training" ≠ "Running" := by
  exact ⟨by with_unfolding_all rfl, by decide⟩

/-- C8: for every action count (and arbitrary other fields), the computed
distance is action * 0.65 / 1000 km for running and walking and
action * 1.38 / 1000 km for swimming. -/
theorem distance_formula (a d wt h l c : ℚ) :
    (Workout.running a d wt).get_distance = a * 0.65 / 1000
    ∧ (Workout.walking a d wt h).get_distance = a * 0.65 / 1000
    ∧ (Workout.swimming a d wt l c).get_distance = a * 1.38 / 1000 := by
  refine ⟨?_, ?_, ?_⟩ <;>
    simp [Workout.get_distance, Workout.action, Workout.LEN_STEP, M_IN_KM]

/-- C10 (counterexample): the empty parameter list has fewer than five
elements, yet constructing a Swimming record from it fails with an arity
(`TypeError`) failure — from the missing positional arguments — and not with
an out-of-bounds list access. -/
theorem swimming_init_empty_arity_error :
    Swimming_init [] = .error .typeError
    ∧ PyError.typeError ≠ PyError.indexError :=
  ⟨rfl, by decide⟩

/-- C10 (amended): for every parameter list with fewer than five elements,
constructing a Swimming record fails and returns no record: with an
out-of-bounds (`IndexError`) access to the `*args` tuple when the list has
three or four elements, and with an arity (`TypeError`) failure when it has
fewer than three. -/
theorem swimming_init_short_list (data : List ℚ) (h : data.length < 5) :
    (3 ≤ data.length ∧ Swimming_init data = .error .indexError)
    ∨ (data.length < 3 ∧ Swimming_init data = .error .typeError) := by
  rcases data with _ | ⟨a, _ | ⟨b, _ | ⟨c, _ | ⟨d, _ | ⟨e, tl⟩⟩⟩⟩⟩
  · right; exact ⟨by simp, rfl⟩
  · right; exact ⟨by simp, rfl⟩
  · right; exact ⟨by simp, rfl⟩
  · left; exact ⟨by simp, rfl⟩
  · left; exact ⟨by simp, rfl⟩
  · exfalso
    simp [List.length_cons] at h
    omega

/-- C10 (witness): the amended statement at the three-element list
[1, 2, 3]. -/
theorem swimming_init_short_list_witness :
    ([(1 : ℚ), 2, 3].length < 5)
    ∧ ((3 ≤ [(1 : ℚ), 2, 3].length
          ∧ Swimming_init [1, 2, 3] = .error .indexError)
        ∨ ([(1 : ℚ), 2, 3].length < 3
          ∧ Swimming_init [1, 2, 3] = .error .typeError)) :=
  ⟨by decide, swimming_init_short_list [1, 2, 3] (by decide)⟩

/-- C4 (counterexample): at the walking sample (9000, 1 h, 75 kg, 180), the
code computes mean speed 5.85 km/h and calories 1224303/7680 ≈ 159.41 kcal,
while the claimed formula (with the 0.278 factor and the height divided by
100) gives a different number. -/
theorem walking_calories_differ_from_spec_formula :
    (Workout.walking 9000 1 75 180).get_mean_speed = .ok (117 / 20)
    ∧ (Workout.walking 9000 1 75 180).get_spent_calories
        = .ok (1224303 / 7680)
    ∧ spec_walking_calories 75 (117 / 20) 180 1 ≠ 1224303 / 7680 := by
  refine ⟨?_, ?_, ?_⟩
  · with_unfolding_all rfl
  · with_unfolding_all rfl
  · with_unfolding_all decide

/-- C4 (amended): for every walking sample whose height parameter is nonzero
and whose mean speed computes to v, the spent calories equal
(0.035 * weight + (v / 3.6)^2 / height * 0.029 * weight) * duration * 60 —
the height is used as passed (no centimetre-to-metre conversion) and the
km/h-to-m/s conversion divides by 3.6. -/
theorem walking_calories_formula (a d wt h v : ℚ) (hh : h ≠ 0)
    (hv : (Workout.walking a d wt h).get_mean_speed = .ok v) :
    (Workout.walking a d wt h).get_spent_calories
      = .ok ((0.035 * wt + (v / 3.6) ^ 2 / h * 0.029 * wt) * d * 60) := by
  simp only [Workout.get_spent_calories, hv]
  simp [pydiv, hh, WEIGHT_MULTIPLIER_ONE, WEIGHT_MULTIPLIER_TWO,
    MEAN_SPEED_DIV]

/-- C4 (witness): the amended statement at the walking sample
(9000, 1, 75, 180), whose mean speed is 5.85 km/h. -/
theorem walking_calories_formula_witness :
    ((180 : ℚ) ≠ 0
      ∧ (Workout.walking 9000 1 75 180).get_mean_speed = .ok (117 / 20))
    ∧ (Workout.walking 9000 1 75 180).get_spent_calories
        = .ok ((0.035 * 75 + ((117 / 20) / 3.6) ^ 2 / 180 * 0.029 * 75)
          * 1 * 60) :=
  ⟨⟨by with_unfolding_all decide, by with_unfolding_all rfl⟩,
    walking_calories_formula 9000 1 75 180 (117 / 20)
      (by with_unfolding_all decide) (by with_unfolding_all rfl)⟩

/-- C5 (amended): for every sample with nonzero duration, the mean speed of
running and walking equals the computed distance divided by the duration; for
swimming it instead equals poolLength * poolLaps / 1000 / duration, and it
coincides with distance / duration exactly when poolLength * poolLaps equals
action * 1.38. -/
theorem mean_speed_distance_ratio (a d wt h l c : ℚ) (hd : d ≠ 0) :
    (Workout.running a d wt).get_mean_speed
      = .ok ((Workout.running a d wt).get_distance / d)
    ∧ (Workout.walking a d wt h).get_mean_speed
      = .ok ((Workout.walking a d wt h).get_distance / d)
    ∧ (Workout.swimming a d wt l c).get_mean_speed = .ok (l * c / 1000 / d)
    ∧ ((Workout.swimming a d wt l c).get_mean_speed
        = .ok ((Workout.swimming a d wt l c).get_distance / d)
       ↔ l * c = a * 1.38) := by
  have hsw : (Workout.swimming a d wt l c).get_mean_speed
      = .ok (l * c / 1000 / d) := by
    simp [Workout.get_mean_speed, pydiv, hd, M_IN_KM]
  have hds : (Workout.swimming a d wt l c).get_distance = a * 1.38 / 1000 := by
    simp [Workout.get_distance, Workout.action, Workout.LEN_STEP, M_IN_KM]
  refine ⟨?_, ?_, hsw, ?_⟩
  · simp [Workout.get_mean_speed, pydiv, hd, Workout.duration]
  · simp [Workout.get_mean_speed, pydiv, hd, Workout.duration]
  · rw [hsw, hds]
    simp only [Except.ok.injEq]
    rw [div_left_inj' hd, div_left_inj' (show (1000 : ℚ) ≠ 0 by norm_num)]

/-- C5 (witness): the amended statement at duration 1 with the fields of the
test packages (action 720, weight 80, height 180, pool 25 × 40). -/
theorem mean_speed_distance_ratio_witness :
    ((1 : ℚ) ≠ 0)
    ∧ ((Workout.running 720 1 80).get_mean_speed
        = .ok ((Workout.running 720 1 80).get_distance / 1)
      ∧ (Workout.walking 720 1 80 180).get_mean_speed
        = .ok ((Workout.walking 720 1 80 180).get_distance / 1)
      ∧ (Workout.swimming 720 1 80 25 40).get_mean_speed
        = .ok (25 * 40 / 1000 / 1)
      ∧ ((Workout.swimming 720 1 80 25 40).get_mean_speed
          = .ok ((Workout.swimming 720 1 80 25 40).get_distance / 1)
         ↔ (25 : ℚ) * 40 = 720 * 1.38)) :=
  ⟨by with_unfolding_all decide, mean_speed_distance_ratio 720 1 80 180 25 40
    (by with_unfolding_all decide)⟩

/-- C6 (amended): the engine performs no input validation: on a zero duration
the mean-speed computation fails with a bare division-by-zero error, and on a
negative duration it succeeds, returning a value, with no error of any
kind. -/
theorem mean_speed_nonpositive_duration (w : Workout)
    (h : w.duration ≤ 0) :
    (w.duration = 0 ∧ w.get_mean_speed = .error .zeroDivisionError)
    ∨ (w.duration < 0 ∧ ∃ v, w.get_mean_speed = .ok v) := by
  rcases eq_or_lt_of_le h with h0 | hneg
  · left
    cases w with
    | running a d wt =>
      simp only [Workout.duration] at h0 ⊢
      subst h0
      exact ⟨rfl, by simp [Workout.get_mean_speed, pydiv, Workout.duration]⟩
    | walking a d wt ht =>
      simp only [Workout.duration] at h0 ⊢
      subst h0
      exact ⟨rfl, by simp [Workout.get_mean_speed, pydiv, Workout.duration]⟩
    | swimming a d wt l c =>
      simp only [Workout.duration] at h0 ⊢
      subst h0
      exact ⟨rfl, by simp [Workout.get_mean_speed, pydiv, Workout.duration]⟩
  · right
    cases w with
    | running a d wt =>
      refine ⟨hneg, ?_⟩
      simp only [Workout.duration] at hneg
      refine ⟨(Workout.running a d wt).get_distance / d, ?_⟩
      simp [Workout.get_mean_speed, pydiv, ne_of_lt hneg, Workout.duration]
    | walking a d wt ht =>
      refine ⟨hneg, ?_⟩
      simp only [Workout.duration] at hneg
      refine ⟨(Workout.walking a d wt ht).get_distance / d, ?_⟩
      simp [Workout.get_mean_speed, pydiv, ne_of_lt hneg, Workout.duration]
    | swimming a d wt l c =>
      refine ⟨hneg, ?_⟩
      simp only [Workout.duration] at hneg
      refine ⟨l * c / 1000 / d, ?_⟩
      simp [Workout.get_mean_speed, pydiv, ne_of_lt hneg, M_IN_KM]

/-- C6 (witness): the amended statement at the running sample with duration
−1 hour. -/
theorem mean_speed_nonpositive_duration_witness :
    ((Workout.running 15000 (-1) 75).duration ≤ 0)
    ∧ (((Workout.running 15000 (-1) 75).duration = 0
          ∧ (Workout.running 15000 (-1) 75).get_mean_speed
            = .error .zeroDivisionError)
        ∨ ((Workout.running 15000 (-1) 75).duration < 0
          ∧ ∃ v, (Workout.running 15000 (-1) 75).get_mean_speed = .ok v)) :=
  ⟨by with_unfolding_all decide,
    mean_speed_nonpositive_duration (Workout.running 15000 (-1) 75)
      (by with_unfolding_all decide)⟩

/-- A rendered decimal digit is never a decimal point. -/
theorem digitChr_ne_dot (n : ℕ) : (digitChr n != '.') = true := by
  have hlt : n % 10 < 10 := Nat.mod_lt _ (by norm_num)
  unfold digitChr
  revert hlt
  generalize n % 10 = k
  intro hlt
  interval_cases k <;> decide

/-- Counting backwards from the end of `pre ++ '.' :: [c1, c2, c3]`, exactly
the three non-dot characters precede the first dot. -/
theorem takeWhile_frac_digits (pre : List Char) (c1 c2 c3 : Char)
    (h1 : (c1 != '.') = true) (h2 : (c2 != '.') = true)
    (h3 : (c3 != '.') = true) :
    ((pre ++ '.' :: [c1, c2, c3]).reverse.takeWhile
      (fun c => c != '.')).length = 3 := by
  simp [List.reverse_append, List.takeWhile_cons, h1, h2, h3]

/-- Every string produced by the `"{:.3f}"` model has exactly three characters
after its last decimal point. -/
theorem fracLen_formatFixed3 (q : ℚ) : fracLen (formatFixed3 q) = 3 := by
  unfold fracLen formatFixed3
  exact takeWhile_frac_digits _ _ _ _ (digitChr_ne_dot _) (digitChr_ne_dot _)
    (digitChr_ne_dot _)

/-- C9: for every sample whose report is produced, the message consists of the
fixed template with four rendered numeric fields — duration, distance, mean
speed, calories — each carrying exactly three characters after its decimal
point, regardless of the precision of the inputs. -/
theorem report_three_decimals (w : Workout) (m : InfoMessage)
    (hm : w.show_training_info = .ok m) :
    ∃ s₁ s₂ s₃ s₄ : String,
      m.get_message
        = "Тип тренировки: " ++ m.training_type ++ "; Длительность: " ++ s₁
          ++ " ч.; Дистанция: " ++ s₂ ++ " км; Ср. скорость: " ++ s₃
          ++ " км/ч; Потрачено ккал: " ++ s₄ ++ "."
      ∧ fracLen s₁ = 3 ∧ fracLen s₂ = 3 ∧ fracLen s₃ = 3 ∧ fracLen s₄ = 3 :=
  ⟨formatFixed3 m.duration, formatFixed3 m.distance, formatFixed3 m.speed,
    formatFixed3 m.calories, rfl, fracLen_formatFixed3 _,
    fracLen_formatFixed3 _, fracLen_formatFixed3 _, fracLen_formatFixed3 _⟩

/-- C9 (witness): the three-decimal statement at the running sample
(15000, 1, 75). -/
theorem report_three_decimals_witness :
    ((Workout.running 15000 1 75).show_training_info
      = .ok { training_type := "My training", duration := 1,
              distance := 39 / 4, speed := 39 / 4, calories := 159561 / 200 })
    ∧ (∃ s₁ s₂ s₃ s₄ : String,
        InfoMessage.get_message
          { training_type := "My training", duration := 1, distance := 39 / 4,
            speed := 39 / 4, calories := 159561 / 200 }
          = "Тип тренировки: " ++ "My training" ++ "; Длительность: " ++ s₁
            ++ " ч.; Дистанция: " ++ s₂ ++ " км; Ср. скорость: " ++ s₃
            ++ " км/ч; Потрачено ккал: " ++ s₄ ++ "."
        ∧ fracLen s₁ = 3 ∧ fracLen s₂ = 3 ∧ fracLen s₃ = 3 ∧ fracLen s₄ = 3) :=
  ⟨by with_unfolding_all rfl,
    report_three_decimals (Workout.running 15000 1 75)
      { training_type := "My training", duration := 1, distance := 39 / 4,
        speed := 39 / 4, calories := 159561 / 200 }
      (by with_unfolding_all rfl)⟩
